import Mathlib

/-!
Verification of the structured-generation pipeline of the VibeTravels
repository (`src/lib/openrouter.service.ts`, `src/lib/services/travel-plan.service.ts`
and the travel-plan API route).

The TypeScript source is shallowly embedded: JSON values become an inductive
type, the ad-hoc repair code of `getStructuredData` becomes pure functions on
that type, the HTTP status mapping of `fetchFromApi` becomes a function on an
outcome type, the retry loop becomes a structurally recursive function, and the
prompt composer of `generatePlan` becomes string-building functions.
-/

namespace VibeTravels

/-! ## JSON value model

`JValue` models the runtime JavaScript values that `JSON.parse` can produce:
null, booleans, numbers, strings, arrays and plain objects (an object is a
finite list of key/value pairs in insertion order, as in a JS object literal
produced by `JSON.parse`, which never has duplicate keys). -/

inductive JValue where
  | null
  | bool (b : Bool)
  | num (n : Int)
  | str (s : String)
  | arr (elems : List JValue)
  | obj (fields : List (String × JValue))

/-- First field with the given key, modelling JS property read `o[key]`
(a `JSON.parse` object has no duplicate keys, so first = only). -/
def lookupField : List (String × JValue) → String → Option JValue
  | [], _ => none
  | (k, v) :: rest, key => if k = key then some v else lookupField rest key

/-- JS property assignment `o[key] = v`: updates the existing slot in place
(keeping its position) or appends a new property at the end. -/
def setField : List (String × JValue) → String → JValue → List (String × JValue)
  | [], key, v => [(key, v)]
  | (k, w) :: rest, key, v =>
    if k = key then (key, v) :: rest else (k, w) :: setField rest key v

/-- Whether the field list has the given key. -/
def hasField (fields : List (String × JValue)) (key : String) : Bool :=
  fields.any (fun kv => kv.1 = key)

/-- `day !== null && typeof day === "object"`: in JS, `typeof` is `"object"`
for plain objects and for arrays (and for `null`, which the source excludes
separately, so it is excluded here). -/
def jsIsObj : JValue → Bool
  | .obj _ => true
  | .arr _ => true
  | _ => false

/-- The JS `in` operator for the keys the repair code tests (`"disclaimer"`,
`"day"`, `"activities"`): true exactly when the value is a plain object with
that key — none of these names is an own property of a JS array. -/
def hasKeyJ : JValue → String → Bool
  | .obj fields, key => hasField fields key
  | _, _ => false

/-- `Object.keys(o).length`: number of fields of an object, number of
elements (index keys) of an array. -/
def keysCount : JValue → Nat
  | .obj fields => fields.length
  | .arr elems => elems.length
  | _ => 0

/-- Property read defaulting to `null` when absent (used where the source has
already checked the key exists). -/
def getFieldD (v : JValue) (key : String) : JValue :=
  match v with
  | .obj fields => (lookupField fields key).getD .null
  | _ => .null

/-! ## Response repair
(`getStructuredData`, `openrouter.service.ts` lines 197-244) -/

/-- The `findIndex` predicate of line 209: an element of `days` that carries a
`disclaimer` key but no `day` key (a disclaimer object misplaced inside the
days array). -/
def isDisclaimerDay (v : JValue) : Bool :=
  jsIsObj v && hasKeyJ v "disclaimer" && !(hasKeyJ v "day")

/-- `days.findIndex(p)` followed by `days.splice(i, 1)`, returned as the
decomposition around the first match: `some (pre, x, post)` when `x` is the
first element satisfying `p`. -/
def findFirstSplit (p : JValue → Bool) : List JValue → Option (List JValue × JValue × List JValue)
  | [] => none
  | x :: xs =>
    if p x then some ([], x, xs)
    else
      match findFirstSplit p xs with
      | some (pre, y, post) => some (x :: pre, y, post)
      | none => none

/-- The in-filter fix of lines 230-236: when a retained day has an
array-valued `activities` field, rewrap it as `{ afternoon: <that array> }`. -/
def fixActivities (day : JValue) : JValue :=
  match day with
  | .obj fields =>
    match lookupField fields "activities" with
    | some (.arr acts) => .obj (setField fields "activities" (.obj [("afternoon", .arr acts)]))
    | _ => day
  | _ => day

/-- The early-return conditions of the filter callback (lines 219-242), as
one conjunction: keep a day iff it is a non-null object (`day === null ||
day === undefined || typeof day !== "object"`), has at least one key
(`Object.keys(dayObj).length === 0`), and is not a leftover disclaimer-only
object (`"disclaimer" in dayObj && !("day" in dayObj)`). -/
def keepDay (day : JValue) : Bool :=
  jsIsObj day && !(keysCount day == 0) && !(hasKeyJ day "disclaimer" && !(hasKeyJ day "day"))

/-- The filter callback of lines 219-242: drop `null`, non-objects, empty
objects and leftover disclaimer-only objects; fix the `activities` shape of
every day that is kept. -/
def keepAndFixDay (day : JValue) : Option JValue :=
  if keepDay day then some (fixActivities day) else none

/-- The whole cleanup block of lines 199-244: when the parsed payload is an
object whose `days` field is an array, hoist the first disclaimer-shaped
element into the top-level `disclaimer` field (removing it from the array),
then filter-and-fix the remaining elements; otherwise return the payload
unchanged. -/
def cleanupResponse (parsed : JValue) : JValue :=
  match parsed with
  | .obj fields =>
    match lookupField fields "days" with
    | some (.arr days) =>
      let hoisted :=
        match findFirstSplit isDisclaimerDay days with
        | some (pre, d, post) =>
          (setField fields "disclaimer" (getFieldD d "disclaimer"), pre ++ post)
        | none => (fields, days)
      .obj (setField hoisted.1 "days" (.arr (hoisted.2.filterMap keepAndFixDay)))
    | _ => parsed
  | _ => parsed

/-! ## Error taxonomy

The typed error classes of `src/lib/errors/openrouter.errors.ts` (imported by
the service and by the API routes; the class file itself only declares the six
distinct classes). A bare JS `Error` — which the source also throws in one
place — is modelled as `generic` and is distinct from every typed class, just
as a base `Error` instance fails every `instanceof <subclass>` test. -/

inductive PipelineError where
  | authentication
  | badRequest (body : String)
  | rateLimit
  | server
  | invalidJSON (raw : String)
  | schemaValidation
  | generic (msg : String)
deriving DecidableEq, Repr

/-- The `instanceof` re-throw test of `fetchFromApi` lines 316-321: exactly the
four transport error classes are re-thrown unchanged from the catch block. -/
def isTransportError : PipelineError → Bool
  | .authentication => true
  | .badRequest _ => true
  | .rateLimit => true
  | .server => true
  | _ => false

/-- The retry condition class test `error instanceof SchemaValidationError`
(line 258). -/
def isSchemaValidationErr : PipelineError → Bool
  | .schemaValidation => true
  | _ => false

/-! ## Transport (`fetchFromApi`, lines 284-328) -/

/-- Outcome of the `fetch` call as seen by `fetchFromApi`: either the promise
chain threw at network level (`thrown`, with `generic` for any non-pipeline
exception value), or a response arrived with a status, a body text, and
`some`/`none` for whether `response.json()` would parse. -/
inductive FetchOutcome where
  | thrown (e : PipelineError)
  | reply (status : Nat) (bodyText : String) (jsonBody : Option JValue)

/-- `response.ok`: status in the inclusive range 200-299. -/
def statusOk (status : Nat) : Bool :=
  200 ≤ status && status ≤ 299

/-- Result of `fetchFromApi` plus whether `response.text()` was invoked (only
the 400 branch reads the body text). -/
structure FetchResult where
  result : Except PipelineError JValue
  readBodyText : Bool

/-- `fetchFromApi`: map the HTTP outcome to a typed error or the parsed JSON.
Non-ok statuses go through the `switch` of lines 298-309 (401, 400, 429,
default); a failing `response.json()` on an ok status throws an untyped
exception which the catch block wraps as `ServerError`; a network-level
exception is re-thrown if it is one of the four transport classes and wrapped
as `ServerError` otherwise. -/
def fetchFromApi : FetchOutcome → FetchResult
  | .thrown e => ⟨.error (if isTransportError e then e else .server), false⟩
  | .reply status bodyText jsonBody =>
    if statusOk status then
      match jsonBody with
      | some v => ⟨.ok v, false⟩
      | none => ⟨.error .server, false⟩
    else if status = 401 then ⟨.error .authentication, false⟩
    else if status = 400 then ⟨.error (.badRequest bodyText), true⟩
    else if status = 429 then ⟨.error .rateLimit, false⟩
    else ⟨.error .server, false⟩

/-! ## Structured-data attempt and retry loop
(`getStructuredData`, lines 167-271) -/

/-- The first tool call of the provider response
(`responseJson.choices[0].message.tool_calls[0]`). -/
structure ToolCall where
  type : String
  arguments : String

/-- Message of the `throw new Error(...)` at line 183 (a bare `Error`, not one
of the typed pipeline error classes). -/
def protocolErrorMsg : String :=
  "Oczekiwano wywołania narzędzia typu \"function\" z API."

/-- Message of the unreachable `throw` at line 270. -/
def exhaustedMsg : String := "Unexpected error in retry logic"

/-- One attempt body of the `for` loop (lines 174-253), downstream of the
transport result: check the tool-call type, `JSON.parse` the arguments
(modelled by the oracle `parseJson`, since `JSON.parse` is a platform
primitive), run the cleanup, then Zod validation (`schema.safeParse`,
modelled by `validateDoc`, which yields the typed data on success). -/
def attemptStep (parseJson : String → Option JValue) (validateDoc : JValue → Option JValue)
    (fetched : Except PipelineError ToolCall) : Except PipelineError JValue :=
  match fetched with
  | .error e => .error e
  | .ok tc =>
    if tc.type ≠ "function" then .error (.generic protocolErrorMsg)
    else
      match parseJson tc.arguments with
      | none => .error (.invalidJSON tc.arguments)
      | some parsed =>
        match validateDoc (cleanupResponse parsed) with
        | some validated => .ok validated
        | none => .error .schemaValidation

/-- The retry loop of lines 173-267, parameterised by the remaining attempt
budget and the current attempt number (`attempt < maxRetries` is `0 < remaining`
after the current attempt is deducted). `send` is the provider: attempt number
and request body in, transport outcome out (the body type is abstract — the
loop is the only consumer and passes the very same `body` to every call).
Returns the list of request bodies sent, plus the final outcome. -/
def getStructuredDataLoop {β : Type} (parseJson : String → Option JValue)
    (validateDoc : JValue → Option JValue) (send : Nat → β → Except PipelineError ToolCall)
    (body : β) : Nat → Nat → List β × Except PipelineError JValue
  | 0, _ => ([], .error (.generic exhaustedMsg))
  | remaining + 1, attempt =>
    match attemptStep parseJson validateDoc (send attempt body) with
    | .ok v => ([body], .ok v)
    | .error e =>
      if isSchemaValidationErr e && decide (0 < remaining) then
        let rest := getStructuredDataLoop parseJson validateDoc send body remaining (attempt + 1)
        (body :: rest.1, rest.2)
      else ([body], .error e)

/-- `getStructuredData` from attempt 1 with the given attempt bound. -/
def getStructuredData {β : Type} (maxRetries : Nat) (parseJson : String → Option JValue)
    (validateDoc : JValue → Option JValue) (send : Nat → β → Except PipelineError ToolCall)
    (body : β) : List β × Except PipelineError JValue :=
  getStructuredDataLoop parseJson validateDoc send body maxRetries 1

/-- The hard-coded attempt bound of line 170 (`const maxRetries = 1`). -/
def defaultMaxRetries : Nat := 1

/-! ## Note-content validation
(`TravelPlanService.validateNoteContent`, `travel-plan.service.ts`) -/

/-- The character class of the JS regex `\s` (the white-space characters that
can actually occur in note text; `\s` also matches the exotic Unicode space
separators, which behave identically for the word count). -/
def jsWhitespace (c : Char) : Bool :=
  c = ' ' || c = '\t' || c = '\n' || c = '\r' || c = '\x0b' || c = '\x0c' || c = '\u00A0'

/-- `content.trim().split(/\s+/).filter((word) => word.length > 0)`: the JS
pipeline returns exactly the maximal runs of non-whitespace characters (the
`trim` and the `filter` only discard the empty fragments that `split` leaves
at boundaries and the result of splitting the empty string). `wordsAux` walks
the characters once, accumulating the current run. -/
def wordsAux : List Char → List Char → List (List Char)
  | [], acc => if acc.isEmpty then [] else [acc.reverse]
  | c :: rest, acc =>
    if jsWhitespace c then
      if acc.isEmpty then wordsAux rest [] else acc.reverse :: wordsAux rest []
    else wordsAux rest (c :: acc)

/-- The word list of a note body. -/
def wordList (s : String) : List (List Char) :=
  wordsAux s.data []

/-- `TravelPlanService.validateNoteContent`: `content` is `string | null`;
`!content` rejects `null` and the empty string (the only falsy string), and
otherwise the note must contain at least 10 words. -/
def validateNoteContent (content : Option String) : Bool :=
  match content with
  | none => false
  | some s => if s = "" then false else decide (10 ≤ (wordList s).length)

/-- Independent count of whitespace-separated words (for stating the claim
against `validateNoteContent`): a word is counted at its last character, i.e.
at every non-whitespace character that is followed by whitespace or the end. -/
def wordEndCount : List Char → Nat
  | [] => 0
  | c :: rest =>
    (if jsWhitespace c then 0
     else match rest with
       | [] => 1
       | c2 :: _ => if jsWhitespace c2 then 1 else 0) + wordEndCount rest

/-- The PUT handler gate of `src/pages/api/notes/[noteId]/travel-plan.ts`
(step 6): a note failing `validateNoteContent` is answered with HTTP 400 and
plan generation is not invoked. -/
inductive NoteGateOutcome where
  | badRequest400
  | proceed
deriving DecidableEq, Repr

/-- The gate itself. -/
def noteContentGate (content : Option String) : NoteGateOutcome :=
  if validateNoteContent content then .proceed else .badRequest400

/-! ## Prompt composer
(`TravelPlanService.generatePlan`, `travel-plan.service.ts`)

The two template literals are split at their interpolation points; `sysT0` ..
`sysT8` and `userT0` .. `userT4` are the verbatim fixed segments of the
`systemPrompt` and `userPrompt` templates (the segment between the budget
interpolation and the preferences ternary is empty and is elided). -/

def sysT0 : String :=
  "Jesteś ekspertem w planowaniu podróży i tworzeniu szczegółowych, spersonalizowanych planów wycieczek. \n\nTwoim zadaniem jest przeanalizowanie notatek użytkownika dotyczących podróży i utworzenie kompleksowego planu wycieczki.\n\nWAŻNE - Wymagania dotyczące dat i numeracji dni:\n- Jeśli notatka zawiera konkretne daty podróży (np. \"od 15 do 18 listopada\", \"weekend 20-22 grudnia\", \"5-7 czerwca\"):\n  * KONIECZNIE wyodrębnij te daty i przypisz je do poszczególnych dni planu\n  * Wypełnij pole \"date\" w formacie ISO (YYYY-MM-DD), np. \"2025-11-15\"\n  * Wypełnij pole \"dayOfWeek\" po polsku: Poniedziałek, Wtorek, Środa, Czwartek, Piątek, Sobota, Niedziela\n  * Zachowaj również numerację dni (day: 1, 2, 3, ...)\n  \nKRYTYCZNE - Logika wyboru roku (dziś jest "

def sysT1 : String :=
  "):\n  * Jeśli rok JEST podany w notatce (np. \"15 listopada 2025\") → użyj tego roku\n  * Jeśli rok NIE JEST podany:\n    - Sprawdź czy data już minęła w bieżącym roku ("

def sysT2 : String :=
  ")\n    - Jeśli data jeszcze nie minęła → użyj bieżącego roku ("

def sysT3 : String :=
  ")\n    - Jeśli data już minęła → użyj następnego roku ("

def sysT4 : String :=
  ")\n  * Przykłady (dziś: 5 listopada 2025):\n    - \"15 listopada\" → 2025-11-15 (nie minęło w 2025)\n    - \"20 grudnia\" → 2025-12-20 (nie minęło w 2025)\n    - \"5 czerwca\" → 2026-06-05 (minęło w 2025, więc następny rok)\n    - \"10 stycznia\" → 2026-01-10 (minęło w 2025, więc następny rok)\n\n- Jeśli notatka NIE zawiera konkretnych dat lub są nieprecyzyjne (np. \"kiedyś w wakacje\"):\n  * Pomiń pola \"date\" i \"dayOfWeek\" (nie dodawaj ich wcale)\n  * Użyj tylko numeracji dni (day: 1, 2, 3, ...)\n  \n- Przykłady dat w notatkach, które MUSISZ rozpoznać:\n  * \"15-18 listopada 2025\" → 2025-11-15, 2025-11-16, 2025-11-17, 2025-11-18\n  * \"od 15.11 do 18.11\" → 2025-11-15 do 2025-11-18 (listopad nie minął)\n  * \"weekend 20-22 grudnia\" → 2025-12-20, 2025-12-21, 2025-12-22 (grudzień nie minął)\n  * \"Przylatuję 5 czerwca, wracam 12 czerwca\" → 2026-06-05 do 2026-06-12 (czerwiec minął w 2025)\n  * \"3 dni od piątku 10 stycznia\" → 2026-01-10, 2026-01-11, 2026-01-12 (styczeń minął w 2025)\n\nMusisz wziąć pod uwagę następujące preferencje użytkownika:\n- Styl: "

def sysT5 : String :=
  "\n- Transport: "

def sysT6 : String :=
  "\n- Budżet: "

def sysT7 : String :=
  ""

def sysT8 : String :=
  "\n\nWAŻNE - Wymagania dotyczące struktury danych: \n- Pole \"activities\" dla każdego dnia MUSI być OBIEKTEM z kluczami: \"morning\", \"afternoon\", \"evening\"\n- Każdy z tych kluczy może zawierać TABLICĘ aktywności dla danej pory dnia lub być pominięty (undefined/null)\n- Pory dnia są OPCJONALNE - możesz pominąć \"morning\" jeśli dzień zaczyna się później, lub pominąć \"evening\" jeśli kończy się wcześniej\n- Przykład poprawnej struktury dla pełnego dnia:\n  \"activities\": \x7b\n    \"morning\": [\x7b \"name\": \"...\", \"description\": \"...\", \"priceCategory\": \"moderate\", \"logistics\": \x7b...\x7d \x7d],\n    \"afternoon\": [\x7b \"name\": \"...\", ... \x7d],\n    \"evening\": [\x7b \"name\": \"...\", ... \x7d]\n  \x7d\n- Przykład dla dnia rozpoczynającego się wieczorem (np. dzień przyjazdu):\n  \"activities\": \x7b\n    \"evening\": [\x7b \"name\": \"...\", ... \x7d]\n  \x7d\n- Przykład dla dnia kończącego się rano (np. dzień wyjazdu):\n  \"activities\": \x7b\n    \"morning\": [\x7b \"name\": \"...\", ... \x7d]\n  \x7d\n- Każda aktywność MUSI mieć wypełnione pole priceCategory używając dokładnie jednej z wartości: \"free\", \"budget\", \"moderate\", \"expensive\"\n- Każda aktywność MUSI zawierać szczegółowy opis (description)\n- Staraj się uwzględnić realne miejsca i atrakcje z notatek użytkownika\n- Dostosuj aktywności do wybranego stylu, transportu i budżetu\n- Uwzględnij logistykę (adresy, szacowany czas)\n- Stwórz plan na podstawie długości pobytu wskazanej w notatkach (lub domyślnie 3 dni)\n\nWAŻNE - Wymagania dotyczące linków do map (logistics.mapLink):\n- ZAWSZE używaj pełnego formatu Google Maps: https://www.google.com/maps/search/?api=1&query=NAZWA_MIEJSCA+MIASTO\n- NIE używaj skróconych linków (goo.gl)\n- Zamień spacje na + w nazwie miejsca\n- ZAWSZE dodaj nazwę miasta na końcu query\n- Przykład prawidłowy: https://www.google.com/maps/search/?api=1&query=Zamek+Królewski+Warszawa\n- Przykład prawidłowy: https://www.google.com/maps/search/?api=1&query=Łazienki+Królewskie+Warszawa"

def prefsHeadText : String :=
  "\n\nPREFERENCJE UŻYTKOWNIKA Z PROFILU:\n"

def prefsTailText : String :=
  "\n\nUwzględnij te preferencje przy planowaniu - traktuj je jako ważne wskazówki, ale nie sztywne wymagania.\nStaraj się, aby w całym planie pojawiła się przynajmniej jedna atrakcja lub restauracja dla każdej preferencji.\n\n• Preferencje kulinarne (np. \"włoska kuchnia\", \"japońska kuchnia\"):\n  - Zaproponuj kilka restauracji tego typu (niekoniecznie wszystkie posiłki)\n  - W opisach wyraźnie zaznacz typ kuchni (np. \"włoska restauracja\", \"pizzeria\")\n  - Połącz z lokalnymi specjałami - dobrze jest mieć mix preferencji użytkownika i lokalnej kuchni\n\n• Zainteresowania tematyczne (np. \"geografia\", \"biologia\", \"historia\", \"sztuka\"):\n  - Włącz do planu przynajmniej jedną-dwie atrakcje związane z każdym zainteresowaniem\n  - \"geografia\" → punkty widokowe, wzgórza, terasy widokowe, ciekawe krajobrazy\n  - \"biologia\" → ogrody botaniczne, akwaria, zoo, rezerwaty przyrody, parki z ciekawą florą\n  - \"historia\" → muzea historyczne, zabytki, zamki, starówki\n  - \"sztuka\" → galerie, muzea sztuki, street art, wystawy\n  - W opisach można naturalnie wspomnieć związek z zainteresowaniem\n\nPrzykład zbalansowanego planu dla preferencji \"włoska kuchnia\", \"biologia\", \"geografia\":\n- Dzień 1: Lunch w pizzerii (włoska kuchnia), Punkt widokowy (geografia)\n- Dzień 2: Ogród Botaniczny (biologia), Kolacja z lokalnymi specjałami\n- Dzień 3: Muzeum Narodowe, Kolacja w włoskiej restauracji"

def userT0 : String :=
  "Na podstawie poniższych notatek podróżnych, stwórz szczegółowy, ustrukturyzowany plan wycieczki:\n\n"

def userT1 : String :=
  "\n\nPamiętaj o dostosowaniu planu do preferencji: styl "

def userT2 : String :=
  ", transport "

def userT3 : String :=
  ", budżet "

def userT4 : String :=
  "."

/-- Calendar date used for the `new Date()` reads in the template (the
composer interpolates the ISO date of "today" and the current/next year). -/
structure SimpleDate where
  year : Nat
  month : Nat
  day : Nat

/-- Two-digit zero padding of `toISOString` month and day fields. -/
def pad2 (n : Nat) : String :=
  if n < 10 then "0" ++ toString n else toString n

/-- `new Date().toISOString().split("T")[0]`: the `YYYY-MM-DD` date part. -/
def isoDate (d : SimpleDate) : String :=
  toString d.year ++ "-" ++ pad2 d.month ++ "-" ++ pad2 d.day

/-- The style ternary of the template
(`style === "adventure" ? ... : ...`). -/
def styleDesc (style : String) : String :=
  if style = "adventure" then "przygodowy (aktywne zwiedzanie, intensywny program)"
  else "wypoczynkowy (spokojne tempo, relaks)"

/-- The transport ternary of the template. -/
def transportDesc (transport : String) : String :=
  if transport = "car" then "samochód"
  else if transport = "public" then "komunikacja publiczna"
  else "piesze przemieszczanie się"

/-- The budget ternary of the template. -/
def budgetDesc (budget : String) : String :=
  if budget = "economy" then "ekonomiczny (tanie opcje)"
  else if budget = "standard" then "standardowy (średnie ceny)"
  else "luksusowy (premium opcje)"

/-- JS `Array.prototype.join("\n")`. -/
def joinLines : List String → String
  | [] => ""
  | [x] => x
  | x :: rest => x ++ "\n" ++ joinLines rest

/-- The preferences ternary:
`userPreferences && userPreferences.length > 0 ? \`...\` : ""` — the block
with one bullet line per preference tag, or the empty string when the tag
list is absent or empty. -/
def prefsSegment (userPreferences : Option (List String)) : String :=
  match userPreferences with
  | none => ""
  | some prefs =>
    if 0 < prefs.length then
      prefsHeadText ++ joinLines (prefs.map (fun pref => "• " ++ pref)) ++ prefsTailText
    else ""

/-- The composed system prompt. -/
def systemPrompt (today : SimpleDate) (style transport budget : String)
    (userPreferences : Option (List String)) : String :=
  sysT0 ++ isoDate today ++ sysT1 ++ toString today.year ++ sysT2 ++ toString today.year ++
    sysT3 ++ toString (today.year + 1) ++ sysT4 ++ styleDesc style ++ sysT5 ++
    transportDesc transport ++ sysT6 ++ budgetDesc budget ++ prefsSegment userPreferences ++ sysT8

/-- The composed user prompt. -/
def userPromptText (noteContent style transport budget : String) : String :=
  userT0 ++ noteContent ++ userT1 ++ style ++ userT2 ++ transport ++ userT3 ++ budget ++ userT4

/-- `TravelPlanOptions` (`src/types.ts`): three optional personalization
fields; the enumerations are strings at the JS level. -/
structure TravelPlanOptions where
  style : Option String
  transport : Option String
  budget : Option String

/-- `options?.field || "default"`: the default applies when `options` is
absent, the field is absent, or the field is the falsy empty string. -/
def jsOrDefault (v : Option String) (dflt : String) : String :=
  match v with
  | some s => if s = "" then dflt else s
  | none => dflt

/-- `const style = options?.style || "leisure"`. -/
def resolvedStyle (options : Option TravelPlanOptions) : String :=
  jsOrDefault (options.bind TravelPlanOptions.style) "leisure"

/-- `const transport = options?.transport || "public"`. -/
def resolvedTransport (options : Option TravelPlanOptions) : String :=
  jsOrDefault (options.bind TravelPlanOptions.transport) "public"

/-- `const budget = options?.budget || "standard"`. -/
def resolvedBudget (options : Option TravelPlanOptions) : String :=
  jsOrDefault (options.bind TravelPlanOptions.budget) "standard"

/-- The pair of prompts `generatePlan` builds before calling
`getStructuredData`. -/
def generatePlanPrompts (today : SimpleDate) (noteContent : String)
    (options : Option TravelPlanOptions) (userPreferences : Option (List String)) : String × String :=
  let style := resolvedStyle options
  let transport := resolvedTransport options
  let budget := resolvedBudget options
  (systemPrompt today style transport budget userPreferences,
   userPromptText noteContent style transport budget)

/-! ## Year-inference rule

The system prompt embeds a deterministic year-selection rule as instruction
text (template lines "KRYTYCZNE - Logika wyboru roku ..."): an explicit year
in the note is used verbatim; for a day+month without a year, the current
year is used when the date has not yet passed relative to today, and the next
year when it has. The two functions below formalise that instruction text. -/

/-- "data już minęła w bieżącym roku": the calendar date `month/day` in the
current year lies strictly before today. -/
def hasPassedInYear (today : SimpleDate) (month day : Nat) : Bool :=
  month < today.month || (month = today.month && day < today.day)

/-- Year chosen for a day+month date expression without an explicit year. -/
def inferYear (today : SimpleDate) (month day : Nat) : Nat :=
  if hasPassedInYear today month day then today.year + 1 else today.year

/-- Year chosen for a date expression: an explicit year verbatim, otherwise
the inferred one. -/
def resolveYear (today : SimpleDate) (explicit : Option Nat) (month day : Nat) : Nat :=
  match explicit with
  | some y => y
  | none => inferYear today month day

/-! ## Supporting lemmas -/

/-- `findIndex`/`splice` semantics: the first match decomposes the list. -/
theorem findFirstSplit_append (p : JValue → Bool) (pre : List JValue) (d : JValue)
    (post : List JValue) (hpre : ∀ x ∈ pre, p x = false) (hd : p d = true) :
    findFirstSplit p (pre ++ d :: post) = some (pre, d, post) := by
  induction pre with
  | nil => simp [findFirstSplit, hd]
  | cons x xs ih =>
    have hx : p x = false := hpre x (List.mem_cons_self x xs)
    have : findFirstSplit p (xs ++ d :: post) = some (xs, d, post) :=
      ih (fun y hy => hpre y (List.mem_cons_of_mem x hy))
    simp [findFirstSplit, hx, this]

/-- No match: `findIndex` returns -1, nothing is spliced. -/
theorem findFirstSplit_none (p : JValue → Bool) (l : List JValue)
    (h : ∀ x ∈ l, p x = false) : findFirstSplit p l = none := by
  induction l with
  | nil => rfl
  | cons x xs ih =>
    have hx : p x = false := h x (List.mem_cons_self x xs)
    have : findFirstSplit p xs = none := ih (fun y hy => h y (List.mem_cons_of_mem x hy))
    simp [findFirstSplit, hx, this]

/-- Assigning a property the value it already has is the identity. -/
theorem setField_eq_self (fs : List (String × JValue)) (key : String) (v : JValue)
    (h : lookupField fs key = some v) : setField fs key v = fs := by
  induction fs with
  | nil => simp [lookupField] at h
  | cons kv rest ih =>
    obtain ⟨k, w⟩ := kv
    by_cases hk : k = key
    · subst hk
      simp [lookupField] at h
      simp [setField, h]
    · simp [lookupField, hk] at h
      simp [setField, hk, ih h]

/-- Assigning one key does not change the presence of another. -/
theorem hasField_setField_ne (fs : List (String × JValue)) (key other : String) (v : JValue)
    (h : key ≠ other) : hasField (setField fs key v) other = hasField fs other := by
  induction fs with
  | nil => simp [setField, hasField, h]
  | cons kv rest ih =>
    obtain ⟨k, w⟩ := kv
    by_cases hk : k = key
    · subst hk
      simp [setField, hasField, h]
    · have ih' := ih
      simp only [hasField] at ih'
      simp [setField, hasField, hk, ih']

/-- Assigning an existing key keeps the number of properties. -/
theorem length_setField_of_mem (fs : List (String × JValue)) (key : String) (v w : JValue)
    (h : lookupField fs key = some w) : (setField fs key v).length = fs.length := by
  induction fs with
  | nil => simp [lookupField] at h
  | cons kv rest ih =>
    obtain ⟨k, u⟩ := kv
    by_cases hk : k = key
    · subst hk
      simp [setField]
    · simp [lookupField, hk] at h
      simp [setField, hk, ih h]

/-- The activities fix preserves object-ness, the key count, and the
presence of the `disclaimer` and `day` keys. -/
theorem fixActivities_obj_props (fields : List (String × JValue)) :
    jsIsObj (fixActivities (.obj fields)) = true ∧
    keysCount (fixActivities (.obj fields)) = fields.length ∧
    hasKeyJ (fixActivities (.obj fields)) "disclaimer" = hasField fields "disclaimer" ∧
    hasKeyJ (fixActivities (.obj fields)) "day" = hasField fields "day" := by
  have heq : fixActivities (.obj fields) =
      match lookupField fields "activities" with
      | some (.arr acts) => .obj (setField fields "activities" (.obj [("afternoon", .arr acts)]))
      | _ => .obj fields := rfl
  rw [heq]
  cases hact : lookupField fields "activities" with
  | none => exact ⟨rfl, rfl, rfl, rfl⟩
  | some val =>
    cases val with
    | arr acts =>
      refine ⟨rfl, ?_, ?_, ?_⟩
      · simpa [keysCount] using length_setField_of_mem fields "activities" _ _ hact
      · simpa [hasKeyJ] using hasField_setField_ne fields "activities" "disclaimer" _ (by decide)
      · simpa [hasKeyJ] using hasField_setField_ne fields "activities" "day" _ (by decide)
    | null => exact ⟨rfl, rfl, rfl, rfl⟩
    | bool b => exact ⟨rfl, rfl, rfl, rfl⟩
    | num n => exact ⟨rfl, rfl, rfl, rfl⟩
    | str s => exact ⟨rfl, rfl, rfl, rfl⟩
    | obj o => exact ⟨rfl, rfl, rfl, rfl⟩

/-- `keepAndFixDay` solved for `some`. -/
theorem keepAndFixDay_eq_some (x v : JValue) :
    keepAndFixDay x = some v ↔ keepDay x = true ∧ v = fixActivities x := by
  unfold keepAndFixDay
  by_cases h : keepDay x = true
  · simp [h, eq_comm]
  · simp [h]

/-- Every element retained by the filter is a non-null JS object with at
least one key that is not disclaimer-shaped. -/
theorem keepAndFixDay_props (x v : JValue) (h : keepAndFixDay x = some v) :
    jsIsObj v = true ∧ keysCount v ≠ 0 ∧ isDisclaimerDay v = false := by
  rw [keepAndFixDay_eq_some] at h
  obtain ⟨hkeep, hv⟩ := h
  subst hv
  unfold keepDay at hkeep
  simp only [Bool.and_eq_true, Bool.not_eq_true', Bool.and_eq_false_iff,
    Bool.not_eq_false', beq_iff_eq] at hkeep
  obtain ⟨⟨hobj, hcount⟩, hdisc⟩ := hkeep
  cases x with
  | null => simp [jsIsObj] at hobj
  | bool b => simp [jsIsObj] at hobj
  | num n => simp [jsIsObj] at hobj
  | str s => simp [jsIsObj] at hobj
  | arr elems =>
    refine ⟨rfl, ?_, ?_⟩
    · simpa [fixActivities, keysCount] using hcount
    · simp [fixActivities, isDisclaimerDay, hasKeyJ]
  | obj fields =>
    obtain ⟨p1, p2, p3, p4⟩ := fixActivities_obj_props fields
    refine ⟨p1, ?_, ?_⟩
    · rw [p2]; simpa [keysCount] using hcount
    · simp only [isDisclaimerDay, p1, p3, p4, Bool.true_and]
      simp only [hasKeyJ] at hdisc
      rcases hdisc with h | h
      · simp [h]
      · simp [h]

/-- Claim-side notion of an already-well-formed day: a non-empty object with
a `day` key whose `activities` field is an object. -/
def wellFormedDay (v : JValue) : Bool :=
  match v with
  | .obj fields =>
    !fields.isEmpty && hasField fields "day" &&
      (match lookupField fields "activities" with
       | some (.obj _) => true
       | _ => false)
  | _ => false

/-- A well-formed day passes the filter unchanged. -/
theorem keepAndFixDay_of_wellFormed (v : JValue) (h : wellFormedDay v = true) :
    keepAndFixDay v = some v := by
  cases v with
  | null => simp [wellFormedDay] at h
  | bool b => simp [wellFormedDay] at h
  | num n => simp [wellFormedDay] at h
  | str s => simp [wellFormedDay] at h
  | arr elems => simp [wellFormedDay] at h
  | obj fields =>
    simp only [wellFormedDay, Bool.and_eq_true, Bool.not_eq_true'] at h
    obtain ⟨⟨hne, hday⟩, hacts⟩ := h
    have hfix : fixActivities (.obj fields) = .obj fields := by
      have heq : fixActivities (.obj fields) =
          match lookupField fields "activities" with
          | some (.arr acts) => .obj (setField fields "activities" (.obj [("afternoon", .arr acts)]))
          | _ => .obj fields := rfl
      rw [heq]
      cases hl : lookupField fields "activities" with
      | none => simp
      | some val => cases val <;> simp_all
    have hkeep : keepDay (.obj fields) = true := by
      simp only [keepDay, jsIsObj, keysCount, hasKeyJ, Bool.true_and, Bool.and_eq_true,
        Bool.not_eq_true', beq_iff_eq]
      constructor
      · simpa [List.isEmpty_iff, List.length_eq_zero] using hne
      · simp [hday]
    simp [keepAndFixDay, hkeep, hfix]

/-- On a list of well-formed days the filter is the identity. -/
theorem filterMap_keepAndFixDay_wf (ds : List JValue)
    (h : ∀ v ∈ ds, wellFormedDay v = true) : ds.filterMap keepAndFixDay = ds := by
  induction ds with
  | nil => rfl
  | cons x xs ih =>
    have hx := keepAndFixDay_of_wellFormed x (h x (List.mem_cons_self x xs))
    have hxs := ih (fun v hv => h v (List.mem_cons_of_mem x hv))
    simp [List.filterMap_cons, hx, hxs]

/-! ### Retry-loop lemmas -/

/-- Every request body in the trace is the one body built before the loop:
each retry reuses the identical request. -/
theorem loop_trace_all_body {β : Type} (parseJson : String → Option JValue)
    (validateDoc : JValue → Option JValue) (send : Nat → β → Except PipelineError ToolCall)
    (body : β) : ∀ (remaining attempt : Nat),
    ∀ x ∈ (getStructuredDataLoop parseJson validateDoc send body remaining attempt).1, x = body := by
  intro remaining
  induction remaining with
  | zero => intro attempt x hx; simp [getStructuredDataLoop] at hx
  | succ r ih =>
    intro attempt x hx
    rw [getStructuredDataLoop] at hx
    cases hstep : attemptStep parseJson validateDoc (send attempt body) with
    | ok v => simp [hstep] at hx; exact hx
    | error e =>
      by_cases hc : (isSchemaValidationErr e && decide (0 < r)) = true
      · simp [hstep, hc] at hx
        rcases hx with h | h
        · exact h
        · exact ih (attempt + 1) x h
      · simp [hstep, hc] at hx; exact hx

/-- If the first `n` attempts fail validation and attempt `n+1` fails with a
non-retryable error, the loop stops there and propagates that error after
exactly `n+1` transport calls. -/
theorem loop_propagates_first_other_error {β : Type} (parseJson : String → Option JValue)
    (validateDoc : JValue → Option JValue) (send : Nat → β → Except PipelineError ToolCall)
    (body : β) : ∀ (n remaining attempt : Nat) (e : PipelineError),
    n + 1 ≤ remaining →
    (∀ i, i < n → attemptStep parseJson validateDoc (send (attempt + i) body) = .error .schemaValidation) →
    attemptStep parseJson validateDoc (send (attempt + n) body) = .error e →
    isSchemaValidationErr e = false →
    getStructuredDataLoop parseJson validateDoc send body remaining attempt =
      (List.replicate (n + 1) body, .error e) := by
  intro n
  induction n with
  | zero =>
    intro remaining attempt e hr hprev hlast he
    obtain ⟨r, rfl⟩ : ∃ r, remaining = r + 1 := ⟨remaining - 1, by omega⟩
    rw [getStructuredDataLoop]
    simp only [Nat.add_zero] at hlast
    simp [hlast, he, List.replicate]
  | succ n ih =>
    intro remaining attempt e hr hprev hlast he
    obtain ⟨r, rfl⟩ : ∃ r, remaining = r + 1 := ⟨remaining - 1, by omega⟩
    rw [getStructuredDataLoop]
    have h0 : attemptStep parseJson validateDoc (send (attempt + 0) body) = .error .schemaValidation :=
      hprev 0 (Nat.succ_pos n)
    simp only [Nat.add_zero] at h0
    have hrpos : 0 < r := by omega
    have hrec := ih r (attempt + 1) e (by omega)
      (fun i hi => by
        have := hprev (i + 1) (by omega)
        simpa [Nat.add_assoc, Nat.add_comm 1 i] using this)
      (by simpa [Nat.add_assoc, Nat.add_comm 1 n] using hlast) he
    simp [h0, isSchemaValidationErr, hrpos, hrec, List.replicate]

/-- If the first `n` attempts fail validation and attempt `n+1` validates,
the loop returns that document after exactly `n+1` transport calls. -/
theorem loop_succeeds_after_sv {β : Type} (parseJson : String → Option JValue)
    (validateDoc : JValue → Option JValue) (send : Nat → β → Except PipelineError ToolCall)
    (body : β) : ∀ (n remaining attempt : Nat) (v : JValue),
    n + 1 ≤ remaining →
    (∀ i, i < n → attemptStep parseJson validateDoc (send (attempt + i) body) = .error .schemaValidation) →
    attemptStep parseJson validateDoc (send (attempt + n) body) = .ok v →
    getStructuredDataLoop parseJson validateDoc send body remaining attempt =
      (List.replicate (n + 1) body, .ok v) := by
  intro n
  induction n with
  | zero =>
    intro remaining attempt v hr hprev hlast
    obtain ⟨r, rfl⟩ : ∃ r, remaining = r + 1 := ⟨remaining - 1, by omega⟩
    rw [getStructuredDataLoop]
    simp only [Nat.add_zero] at hlast
    simp [hlast, List.replicate]
  | succ n ih =>
    intro remaining attempt v hr hprev hlast
    obtain ⟨r, rfl⟩ : ∃ r, remaining = r + 1 := ⟨remaining - 1, by omega⟩
    rw [getStructuredDataLoop]
    have h0 : attemptStep parseJson validateDoc (send (attempt + 0) body) = .error .schemaValidation :=
      hprev 0 (Nat.succ_pos n)
    simp only [Nat.add_zero] at h0
    have hrpos : 0 < r := by omega
    have hrec := ih r (attempt + 1) v (by omega)
      (fun i hi => by
        have := hprev (i + 1) (by omega)
        simpa [Nat.add_assoc, Nat.add_comm 1 i] using this)
      (by simpa [Nat.add_assoc, Nat.add_comm 1 n] using hlast)
    simp [h0, isSchemaValidationErr, hrpos, hrec, List.replicate]

/-- With one attempt allowed, exactly one transport call happens, whatever
the attempt outcome. -/
theorem loop_single_attempt {β : Type} (parseJson : String → Option JValue)
    (validateDoc : JValue → Option JValue) (send : Nat → β → Except PipelineError ToolCall)
    (body : β) (attempt : Nat) :
    (getStructuredDataLoop parseJson validateDoc send body 1 attempt).1 = [body] := by
  rw [getStructuredDataLoop]
  cases hstep : attemptStep parseJson validateDoc (send attempt body) with
  | ok v => simp [hstep]
  | error e => simp [hstep]

/-- When every allowed attempt fails validation, the loop exhausts the bound
and propagates `SchemaValidationError` after exactly `remaining` calls. -/
theorem loop_exhausts_on_sv {β : Type} (parseJson : String → Option JValue)
    (validateDoc : JValue → Option JValue) (send : Nat → β → Except PipelineError ToolCall)
    (body : β) : ∀ (remaining attempt : Nat), 1 ≤ remaining →
    (∀ i, i < remaining → attemptStep parseJson validateDoc (send (attempt + i) body) = .error .schemaValidation) →
    getStructuredDataLoop parseJson validateDoc send body remaining attempt =
      (List.replicate remaining body, .error .schemaValidation) := by
  intro remaining
  induction remaining with
  | zero => intro attempt h; omega
  | succ r ih =>
    intro attempt _ hall
    rw [getStructuredDataLoop]
    have h0 : attemptStep parseJson validateDoc (send (attempt + 0) body) = .error .schemaValidation :=
      hall 0 (Nat.succ_pos r)
    simp only [Nat.add_zero] at h0
    by_cases hr : 1 ≤ r
    · have hrec := ih (attempt + 1) hr
        (fun i hi => by
          have := hall (i + 1) (by omega)
          simpa [Nat.add_assoc, Nat.add_comm 1 i] using this)
      have hrpos : 0 < r := by omega
      simp [h0, isSchemaValidationErr, hrpos, hrec, List.replicate]
    · have hr0 : r = 0 := by omega
      subst hr0
      simp [h0, isSchemaValidationErr, List.replicate]

/-! ### Word-count lemmas -/

/-- Whether a position is a word boundary: the list is exhausted or starts
with whitespace. -/
def atBoundary (l : List Char) : Bool :=
  match l with
  | [] => true
  | c :: _ => jsWhitespace c

/-- The number of words `wordsAux` produces, related to the independent
end-of-word count. -/
theorem wordsAux_length (l : List Char) : ∀ acc : List Char,
    (wordsAux l acc).length =
      wordEndCount l + (if acc.isEmpty then 0 else if atBoundary l then 1 else 0) := by
  induction l with
  | nil =>
    intro acc
    cases acc with
    | nil => simp [wordsAux, wordEndCount, atBoundary]
    | cons c cs => simp [wordsAux, wordEndCount, atBoundary]
  | cons c rest ih =>
    intro acc
    by_cases hws : jsWhitespace c = true
    · cases acc with
      | nil => simp [wordsAux, hws, wordEndCount, atBoundary, ih]
      | cons a as =>
        simp only [wordsAux, hws, if_pos, List.isEmpty_cons, if_neg]
        simp [wordEndCount, hws, atBoundary, ih, List.length_cons]
    · have h1 : wordsAux (c :: rest) acc = wordsAux rest (c :: acc) := by
        simp [wordsAux, hws]
      rw [h1, ih]
      have h2 : wordEndCount (c :: rest) =
          (if atBoundary rest then 1 else 0) + wordEndCount rest := by
        cases rest with
        | nil => simp [wordEndCount, hws, atBoundary]
        | cons c2 rest2 => simp [wordEndCount, hws, atBoundary]
      rw [h2]
      simp only [List.isEmpty_cons, if_neg, atBoundary, hws]
      cases acc with
      | nil => simp [atBoundary]; omega
      | cons a as => simp [atBoundary]; omega

/-! ### String decomposition helpers -/

/-- Concatenation at the character-list level. -/
theorem strDataAppend (s t : String) : (s ++ t).data = s.data ++ t.data := rfl

/-- A middle factor of a string concatenation occurs in it as a contiguous
substring (stated on the character lists). -/
theorem substringOfDecomp (s a b c : String) (h : s = a ++ (b ++ c)) :
    b.data <:+: s.data := by
  subst h
  exact ⟨a.data, c.data, by simp [strDataAppend, List.append_assoc]⟩

/-- A substring of the left part survives appending on the right. -/
theorem substringAppendLeft (s t u : String) (h : u.data <:+: s.data) :
    u.data <:+: (s ++ t).data := by
  rcases h with ⟨a, b, hab⟩
  exact ⟨a, b ++ t.data, by simp [strDataAppend, ← hab, List.append_assoc]⟩

/-- A substring of the right part survives appending on the left. -/
theorem substringAppendRight (s t u : String) (h : u.data <:+: t.data) :
    u.data <:+: (s ++ t).data := by
  rcases h with ⟨a, b, hab⟩
  exact ⟨s.data ++ a, b, by simp [strDataAppend, ← hab, List.append_assoc]⟩

/-- Every joined line occurs in the join as a contiguous substring. -/
theorem mem_joinLines_substring (l : List String) (s : String) (h : s ∈ l) :
    s.data <:+: (joinLines l).data := by
  induction l with
  | nil => simp at h
  | cons x xs ih =>
    rcases List.mem_cons.mp h with rfl | hmem
    · cases xs with
      | nil => simp [joinLines]
      | cons y ys =>
        exact substringAppendLeft _ _ _ (substringAppendLeft _ _ _ List.infix_rfl)
    · cases xs with
      | nil => simp at hmem
      | cons y ys =>
        exact substringAppendRight _ _ _ (ih hmem)

/-! ## Claim theorems -/

/-- C2: `fetchFromApi` maps each HTTP/network outcome to exactly one typed
error: 401 → `AuthenticationError` without reading the body text, 400 →
`BadRequestError` carrying the body text, 429 → `RateLimitError`, any other
non-2xx status → `ServerError`; a network-level exception is re-thrown when
already typed and wrapped as `ServerError` otherwise; a 2xx response with a
parseable body returns the parsed JSON and raises nothing. -/
theorem fetchFromApi_status_mapping :
    (∀ (b : String) (j : Option JValue),
       fetchFromApi (.reply 401 b j) = ⟨.error .authentication, false⟩) ∧
    (∀ (b : String) (j : Option JValue),
       fetchFromApi (.reply 400 b j) = ⟨.error (.badRequest b), true⟩) ∧
    (∀ (b : String) (j : Option JValue),
       fetchFromApi (.reply 429 b j) = ⟨.error .rateLimit, false⟩) ∧
    (∀ (s : Nat) (b : String) (j : Option JValue),
       statusOk s = false → s ≠ 401 → s ≠ 400 → s ≠ 429 →
       fetchFromApi (.reply s b j) = ⟨.error .server, false⟩) ∧
    (∀ e : PipelineError, isTransportError e = false →
       fetchFromApi (.thrown e) = ⟨.error .server, false⟩) ∧
    (∀ e : PipelineError, isTransportError e = true →
       fetchFromApi (.thrown e) = ⟨.error e, false⟩) ∧
    (∀ (s : Nat) (b : String) (v : JValue), statusOk s = true →
       fetchFromApi (.reply s b (some v)) = ⟨.ok v, false⟩) := by
  refine ⟨?_, ?_, ?_, ?_, ?_, ?_, ?_⟩
  · intro b j; simp [fetchFromApi, statusOk]
  · intro b j; simp [fetchFromApi, statusOk]
  · intro b j; simp [fetchFromApi, statusOk]
  · intro s b j h1 h2 h3 h4; simp [fetchFromApi, h1, h2, h3, h4]
  · intro e he; simp [fetchFromApi, he]
  · intro e he; simp [fetchFromApi, he]
  · intro s b v hs; simp [fetchFromApi, hs]

/-- Witness for C2: the mapping evaluated at a 503 response. -/
theorem fetchFromApi_status_mapping_witness :
    fetchFromApi (.reply 503 "unavailable" none) = ⟨.error .server, false⟩ :=
  fetchFromApi_status_mapping.2.2.2.1 503 "unavailable" none
    (by decide) (by decide) (by decide) (by decide)

/-- C3: when `days` is an array whose first disclaimer-shaped element is `d`,
the repair hoists the `disclaimer` of `d` to the top level, removes `d` from
the array, and the filtered remainder contains no element that is null, a
non-object, an empty object, or a disclaimer-only object. -/
theorem cleanup_hoists_disclaimer (fields : List (String × JValue))
    (pre post : List JValue) (d : JValue)
    (hdays : lookupField fields "days" = some (.arr (pre ++ d :: post)))
    (hpre : ∀ x ∈ pre, isDisclaimerDay x = false)
    (hd : isDisclaimerDay d = true) :
    cleanupResponse (.obj fields) =
      .obj (setField (setField fields "disclaimer" (getFieldD d "disclaimer"))
        "days" (.arr ((pre ++ post).filterMap keepAndFixDay))) ∧
    ∀ v ∈ (pre ++ post).filterMap keepAndFixDay,
      jsIsObj v = true ∧ keysCount v ≠ 0 ∧ isDisclaimerDay v = false := by
  constructor
  · simp only [cleanupResponse, hdays, findFirstSplit_append isDisclaimerDay pre d post hpre hd]
  · intro v hv
    rcases List.mem_filterMap.mp hv with ⟨x, _, hxv⟩
    exact keepAndFixDay_props x v hxv

/-- Witness for C3: one disclaimer-shaped object and two valid day objects
repair to a document with the hoisted disclaimer and two days. -/
theorem cleanup_hoists_disclaimer_witness :
    cleanupResponse (.obj [("days", .arr
      [.obj [("disclaimer", .str "Sprawdź godziny otwarcia")],
       .obj [("day", .num 1), ("activities", .obj [])],
       .obj [("day", .num 2), ("activities", .obj [])]])]) =
    .obj [("days", .arr
      [.obj [("day", .num 1), ("activities", .obj [])],
       .obj [("day", .num 2), ("activities", .obj [])]]),
      ("disclaimer", .str "Sprawdź godziny otwarcia")] ∧
    ((([] : List JValue) ++
      [JValue.obj [("day", .num 1), ("activities", .obj [])],
       JValue.obj [("day", .num 2), ("activities", .obj [])]]).filterMap keepAndFixDay).length = 2 := by
  have h := cleanup_hoists_disclaimer
    [("days", .arr
      [.obj [("disclaimer", .str "Sprawdź godziny otwarcia")],
       .obj [("day", .num 1), ("activities", .obj [])],
       .obj [("day", .num 2), ("activities", .obj [])]])]
    [] [.obj [("day", .num 1), ("activities", .obj [])],
        .obj [("day", .num 2), ("activities", .obj [])]]
    (.obj [("disclaimer", .str "Sprawdź godziny otwarcia")])
    rfl (by simp) rfl
  exact ⟨h.1, rfl⟩

/-- C4: a retained day whose `activities` field is an array is rewritten so
that `activities` becomes `{ afternoon: <that same array> }`, elements and
order preserved. -/
theorem activities_array_wrapped (fs : List (String × JValue)) (acts : List JValue)
    (hact : lookupField fs "activities" = some (.arr acts))
    (hnotdisc : (hasField fs "disclaimer" && !(hasField fs "day")) = false) :
    keepAndFixDay (.obj fs) =
      some (.obj (setField fs "activities" (.obj [("afternoon", .arr acts)]))) := by
  have hne : fs.length ≠ 0 := by
    cases fs with
    | nil => simp [lookupField] at hact
    | cons a l => simp
  have hkeep : keepDay (.obj fs) = true := by
    simp only [keepDay, jsIsObj, keysCount, hasKeyJ, Bool.true_and]
    rw [hnotdisc]
    simp [hne]
  have hfix : fixActivities (.obj fs) =
      .obj (setField fs "activities" (.obj [("afternoon", .arr acts)])) := by
    have heq : fixActivities (.obj fs) =
        match lookupField fs "activities" with
        | some (.arr a) => .obj (setField fs "activities" (.obj [("afternoon", .arr a)]))
        | _ => .obj fs := rfl
    rw [heq, hact]
  simp [keepAndFixDay, hkeep, hfix]

/-- Witness for C4: a flat `activities` array of 3 items becomes
`{ afternoon: [...the same 3 items...] }`. -/
theorem activities_array_wrapped_witness :
    keepAndFixDay (.obj [("day", .num 1),
      ("activities", .arr [.str "Wawel", .str "Rynek", .str "Kazimierz"])]) =
    some (.obj [("day", .num 1),
      ("activities", .obj [("afternoon", .arr [.str "Wawel", .str "Rynek", .str "Kazimierz"])])]) :=
  activities_array_wrapped
    [("day", .num 1), ("activities", .arr [.str "Wawel", .str "Rynek", .str "Kazimierz"])]
    [.str "Wawel", .str "Rynek", .str "Kazimierz"] rfl rfl

/-- C5: the repair is the identity on an already-well-formed document — a
`days` array of non-empty day objects, each with a `day` key and an
object-valued `activities` field — and in particular every such day passes
through unchanged (no time-of-day key is synthesized). -/
theorem cleanup_idempotent_on_wellformed (fields : List (String × JValue)) (ds : List JValue)
    (hdays : lookupField fields "days" = some (.arr ds))
    (hwf : ∀ v ∈ ds, wellFormedDay v = true) :
    cleanupResponse (.obj fields) = .obj fields ∧
    ∀ v ∈ ds, keepAndFixDay v = some v := by
  have hnodisc : ∀ v ∈ ds, isDisclaimerDay v = false := by
    intro v hv
    have h := hwf v hv
    cases v with
    | null => simp [wellFormedDay] at h
    | bool b => simp [wellFormedDay] at h
    | num n => simp [wellFormedDay] at h
    | str s => simp [wellFormedDay] at h
    | arr elems => simp [wellFormedDay] at h
    | obj fs =>
      simp only [wellFormedDay, Bool.and_eq_true] at h
      simp [isDisclaimerDay, hasKeyJ, h.1.2]
  have hsplit := findFirstSplit_none isDisclaimerDay ds hnodisc
  have hfm := filterMap_keepAndFixDay_wf ds hwf
  constructor
  · simp only [cleanupResponse, hdays, hsplit, hfm]
    rw [setField_eq_self fields "days" _ hdays]
  · intro v hv
    exact keepAndFixDay_of_wellFormed v (hwf v hv)

/-- Witness for C5: a well-formed two-day document (one day with only an
`evening` key inside `activities`) is returned unchanged. -/
theorem cleanup_idempotent_on_wellformed_witness :
    cleanupResponse (.obj [("days", .arr
      [.obj [("day", .num 1), ("title", .str "Wawel"),
             ("activities", .obj [("evening", .arr [.str "Rynek"])])],
       .obj [("day", .num 2), ("activities", .obj [])]]),
      ("disclaimer", .str "ok")]) =
    .obj [("days", .arr
      [.obj [("day", .num 1), ("title", .str "Wawel"),
             ("activities", .obj [("evening", .arr [.str "Rynek"])])],
       .obj [("day", .num 2), ("activities", .obj [])]]),
      ("disclaimer", .str "ok")] :=
  (cleanup_idempotent_on_wellformed
    [("days", .arr
      [.obj [("day", .num 1), ("title", .str "Wawel"),
             ("activities", .obj [("evening", .arr [.str "Rynek"])])],
       .obj [("day", .num 2), ("activities", .obj [])]]),
      ("disclaimer", .str "ok")]
    [.obj [("day", .num 1), ("title", .str "Wawel"),
           ("activities", .obj [("evening", .arr [.str "Rynek"])])],
     .obj [("day", .num 2), ("activities", .obj [])]]
    rfl (by decide)).1

/-- C6: for a well-typed tool call, the attempt raises
`InvalidJSONResponseError` (carrying the raw arguments) exactly when the
arguments string does not parse as JSON; when it parses, the parsed value
proceeds to repair (`cleanupResponse`) and validation, and the outcome is
the validated document or `SchemaValidationError` — never the JSON error. -/
theorem invalid_json_iff_parse_fails (parseJson : String → Option JValue)
    (validateDoc : JValue → Option JValue) (tc : ToolCall) (htype : tc.type = "function") :
    (attemptStep parseJson validateDoc (.ok tc) = .error (.invalidJSON tc.arguments) ↔
      parseJson tc.arguments = none) ∧
    (∀ v, parseJson tc.arguments = some v →
      attemptStep parseJson validateDoc (.ok tc) =
        (match validateDoc (cleanupResponse v) with
         | some validated => .ok validated
         | none => .error .schemaValidation)) := by
  constructor
  · constructor
    · intro h
      cases hp : parseJson tc.arguments with
      | none => rfl
      | some v =>
        simp only [attemptStep, htype, ne_eq, not_true_eq_false, if_false, hp] at h
        cases hval : validateDoc (cleanupResponse v) with
        | some validated => simp [hval] at h
        | none => simp [hval] at h
    · intro h
      simp [attemptStep, htype, h]
  · intro v hv
    simp [attemptStep, htype, hv]

/-- Witness for C6: an unparseable arguments string raises the JSON error; a
parseable one proceeds to validation. -/
theorem invalid_json_iff_parse_fails_witness :
    (attemptStep (fun _ => none) (fun v => some v)
      (.ok ⟨"function", "not json"⟩) = .error (.invalidJSON "not json") ↔
      (fun (_ : String) => (none : Option JValue)) "not json" = none) ∧
    (∀ v, (fun (_ : String) => some JValue.null) "not json" = some v →
      attemptStep (fun _ => some JValue.null) (fun v => some v)
        (.ok ⟨"function", "not json"⟩) =
        (match (fun v => some v) (cleanupResponse v) with
         | some validated => .ok validated
         | none => .error .schemaValidation)) :=
  ⟨(invalid_json_iff_parse_fails (fun _ => none) (fun v => some v)
      ⟨"function", "not json"⟩ rfl).1,
   (invalid_json_iff_parse_fails (fun _ => some JValue.null) (fun v => some v)
      ⟨"function", "not json"⟩ rfl).2⟩

/-- C7, counterexample: on a tool call whose `type` is not `"function"`, the
code throws a bare `Error` (line 183), which is not a `ServerError` — the
result differs from `.error .server` at this concrete input. -/
theorem protocol_violation_not_server_error :
    attemptStep (fun _ => none) (fun _ => none) (.ok ⟨"text", "irrelevant"⟩) =
      .error (.generic protocolErrorMsg) ∧
    attemptStep (fun _ => none) (fun _ => none) (.ok ⟨"text", "irrelevant"⟩) ≠
      (.error .server : Except PipelineError JValue) := by
  constructor
  · rfl
  · intro h
    simp [attemptStep, protocolErrorMsg] at h

/-- C7, amended: a tool call whose top-level `type` is not `"function"` makes
the attempt fail immediately with the untyped protocol-violation `Error`
(never reaching JSON parsing), an error distinct from `ServerError`. -/
theorem protocol_violation_generic_error (parseJson : String → Option JValue)
    (validateDoc : JValue → Option JValue) (tc : ToolCall) (h : tc.type ≠ "function") :
    attemptStep parseJson validateDoc (.ok tc) = .error (.generic protocolErrorMsg) ∧
    (.generic protocolErrorMsg : PipelineError) ≠ .server := by
  constructor
  · simp [attemptStep, h]
  · simp

/-- Witness for the amended C7. -/
theorem protocol_violation_generic_error_witness :
    attemptStep (fun _ => some JValue.null) (fun v => some v) (.ok ⟨"tool", "args"⟩) =
      .error (.generic protocolErrorMsg) ∧
    (.generic protocolErrorMsg : PipelineError) ≠ .server :=
  protocol_violation_generic_error (fun _ => some JValue.null) (fun v => some v)
    ⟨"tool", "args"⟩ (by decide)

/-- C1: the retry loop (i) sends the identical request body on every call,
(ii) propagates the first non-`SchemaValidationError` failure immediately
(after the `k`-th call when the first `k-1` attempts failed validation),
(iii) with max attempts 1 makes exactly one transport call even when
validation fails, and (iv) with max attempts 2 makes exactly two calls when
the first attempt fails validation and the second validates. -/
theorem retry_loop_policy :
    (∀ (β : Type) (parseJson : String → Option JValue) (validateDoc : JValue → Option JValue)
       (send : Nat → β → Except PipelineError ToolCall) (body : β) (maxRetries : Nat),
       ∀ x ∈ (getStructuredData maxRetries parseJson validateDoc send body).1, x = body) ∧
    (∀ (β : Type) (parseJson : String → Option JValue) (validateDoc : JValue → Option JValue)
       (send : Nat → β → Except PipelineError ToolCall) (body : β)
       (maxRetries k : Nat) (e : PipelineError),
       1 ≤ k → k ≤ maxRetries →
       (∀ j, 1 ≤ j → j < k →
         attemptStep parseJson validateDoc (send j body) = .error .schemaValidation) →
       attemptStep parseJson validateDoc (send k body) = .error e →
       isSchemaValidationErr e = false →
       getStructuredData maxRetries parseJson validateDoc send body =
         (List.replicate k body, .error e)) ∧
    (∀ (β : Type) (parseJson : String → Option JValue) (validateDoc : JValue → Option JValue)
       (send : Nat → β → Except PipelineError ToolCall) (body : β),
       (getStructuredData 1 parseJson validateDoc send body).1 = [body]) ∧
    (∀ (β : Type) (parseJson : String → Option JValue) (validateDoc : JValue → Option JValue)
       (send : Nat → β → Except PipelineError ToolCall) (body : β) (v : JValue),
       attemptStep parseJson validateDoc (send 1 body) = .error .schemaValidation →
       attemptStep parseJson validateDoc (send 2 body) = .ok v →
       getStructuredData 2 parseJson validateDoc send body = ([body, body], .ok v)) ∧
    (∀ (β : Type) (parseJson : String → Option JValue) (validateDoc : JValue → Option JValue)
       (send : Nat → β → Except PipelineError ToolCall) (body : β) (maxRetries : Nat),
       1 ≤ maxRetries →
       (∀ j, 1 ≤ j → j ≤ maxRetries →
         attemptStep parseJson validateDoc (send j body) = .error .schemaValidation) →
       getStructuredData maxRetries parseJson validateDoc send body =
         (List.replicate maxRetries body, .error .schemaValidation)) := by
  refine ⟨?_, ?_, ?_, ?_, ?_⟩
  · intro β parseJson validateDoc send body maxRetries x hx
    exact loop_trace_all_body parseJson validateDoc send body maxRetries 1 x hx
  · intro β parseJson validateDoc send body maxRetries k e hk hkm hprev hlast he
    have h := loop_propagates_first_other_error parseJson validateDoc send body
      (k - 1) maxRetries 1 e (by omega)
      (fun i hi => by
        have := hprev (1 + i) (by omega) (by omega)
        simpa using this)
      (by
        have : 1 + (k - 1) = k := by omega
        rw [this]; exact hlast) he
    have hk1 : k - 1 + 1 = k := by omega
    rw [hk1] at h
    exact h
  · intro β parseJson validateDoc send body
    exact loop_single_attempt parseJson validateDoc send body 1
  · intro β parseJson validateDoc send body v h1 h2
    have h := loop_succeeds_after_sv parseJson validateDoc send body 1 2 1 v
      (by omega)
      (fun i hi => by
        have hi0 : i = 0 := by omega
        subst hi0
        simpa using h1)
      (by simpa using h2)
    simpa [List.replicate] using h
  · intro β parseJson validateDoc send body maxRetries h1 hall
    have h := loop_exhausts_on_sv parseJson validateDoc send body maxRetries 1 h1
      (fun i hi => by
        have := hall (1 + i) (by omega) (by omega)
        simpa using this)
    exact h

/-- Witness for C1: a provider that fails validation on attempt 1 and
validates on attempt 2 — one call with max attempts 1, two calls (same body
both times) with max attempts 2. -/
theorem retry_loop_policy_witness :
    (getStructuredData 1 (fun s => if s = "good" then some (.bool true) else some .null)
      (fun v => match v with | .bool true => some (.bool true) | _ => none)
      (fun attempt _ => if attempt = 1 then .ok ⟨"function", "bad"⟩ else .ok ⟨"function", "good"⟩)
      (0 : Nat)).1 = [0] ∧
    getStructuredData 2 (fun s => if s = "good" then some (.bool true) else some .null)
      (fun v => match v with | .bool true => some (.bool true) | _ => none)
      (fun attempt _ => if attempt = 1 then .ok ⟨"function", "bad"⟩ else .ok ⟨"function", "good"⟩)
      (0 : Nat) = ([0, 0], .ok (.bool true)) :=
  ⟨retry_loop_policy.2.2.1 Nat _ _ _ 0,
   retry_loop_policy.2.2.2.1 Nat _ _ _ 0 (.bool true) rfl rfl⟩

/-- C8: with reference date 2025-11-05, the instruction rule assigns year
2025 to a day+month on or after November 5 and 2026 to one before it; an
explicit year is used verbatim; the rule agrees with the four worked
examples the prompt itself states; and the composed prompt interpolates the
current and next year into the rule text. -/
theorem year_inference_rule (month day : Nat) :
    ((11 < month ∨ (month = 11 ∧ 5 ≤ day)) → inferYear ⟨2025, 11, 5⟩ month day = 2025) ∧
    ((month < 11 ∨ (month = 11 ∧ day < 5)) → inferYear ⟨2025, 11, 5⟩ month day = 2026) ∧
    (∀ (today : SimpleDate) (y : Nat), resolveYear today (some y) month day = y) ∧
    (inferYear ⟨2025, 11, 5⟩ 11 15 = 2025 ∧ inferYear ⟨2025, 11, 5⟩ 12 20 = 2025 ∧
     inferYear ⟨2025, 11, 5⟩ 6 5 = 2026 ∧ inferYear ⟨2025, 11, 5⟩ 1 10 = 2026) ∧
    (∀ (style transport budget : String) (prefs : Option (List String)),
       (toString (2025 : Nat)).data <:+:
         (systemPrompt ⟨2025, 11, 5⟩ style transport budget prefs).data ∧
       (toString (2026 : Nat)).data <:+:
         (systemPrompt ⟨2025, 11, 5⟩ style transport budget prefs).data) := by
  refine ⟨?_, ?_, ?_, ⟨by decide, by decide, by decide, by decide⟩, ?_⟩
  · intro h
    have hcond : hasPassedInYear ⟨2025, 11, 5⟩ month day = false := by
      simp only [hasPassedInYear, Bool.or_eq_false_iff, Bool.and_eq_false_iff,
        decide_eq_false_iff_not]
      omega
    simp [inferYear, hcond]
  · intro h
    have hcond : hasPassedInYear ⟨2025, 11, 5⟩ month day = true := by
      simp only [hasPassedInYear, Bool.or_eq_true, Bool.and_eq_true, decide_eq_true_eq]
      omega
    simp [inferYear, hcond]
  · intro today y
    rfl
  · intro style transport budget prefs
    constructor
    · exact substringOfDecomp _
        (sysT0 ++ isoDate ⟨2025, 11, 5⟩ ++ sysT1)
        (toString (2025 : Nat))
        (sysT2 ++ toString (2025 : Nat) ++ sysT3 ++ toString (2026 : Nat) ++ sysT4 ++
          styleDesc style ++ sysT5 ++ transportDesc transport ++ sysT6 ++
          budgetDesc budget ++ prefsSegment prefs ++ sysT8)
        (by simp [systemPrompt, String.append_assoc])
    · exact substringOfDecomp _
        (sysT0 ++ isoDate ⟨2025, 11, 5⟩ ++ sysT1 ++ toString (2025 : Nat) ++ sysT2 ++
          toString (2025 : Nat) ++ sysT3)
        (toString (2026 : Nat))
        (sysT4 ++ styleDesc style ++ sysT5 ++ transportDesc transport ++ sysT6 ++
          budgetDesc budget ++ prefsSegment prefs ++ sysT8)
        (by simp [systemPrompt, String.append_assoc])

/-- Witness for C8, at the prompt's own examples. -/
theorem year_inference_rule_witness :
    inferYear ⟨2025, 11, 5⟩ 11 15 = 2025 ∧ inferYear ⟨2025, 11, 5⟩ 6 5 = 2026 ∧
    resolveYear ⟨2025, 11, 5⟩ (some 2025) 11 15 = 2025 :=
  ⟨(year_inference_rule 11 15).1 (Or.inr ⟨rfl, by omega⟩),
   (year_inference_rule 6 5).2.1 (Or.inl (by omega)),
   (year_inference_rule 11 15).2.2.1 ⟨2025, 11, 5⟩ 2025⟩

/-- C9: with an empty or absent tag list the composed system prompt is
exactly the concatenation with no preferences block at all; with tags, every
tag appears as a bullet line inside the prompt; absent options resolve to
leisure/public/standard, and so do explicitly conveyed defaults; and the
resolved default prompts carry the leisure, public-transport and
standard-budget phrasings. -/
theorem preferences_block_and_defaults :
    (∀ (today : SimpleDate) (style transport budget : String),
       prefsSegment none = "" ∧ prefsSegment (some []) = "" ∧
       systemPrompt today style transport budget none =
         sysT0 ++ isoDate today ++ sysT1 ++ toString today.year ++ sysT2 ++
           toString today.year ++ sysT3 ++ toString (today.year + 1) ++ sysT4 ++
           styleDesc style ++ sysT5 ++ transportDesc transport ++ sysT6 ++
           budgetDesc budget ++ sysT8 ∧
       systemPrompt today style transport budget (some []) =
         systemPrompt today style transport budget none) ∧
    (∀ (today : SimpleDate) (style transport budget tag : String) (prefs : List String),
       tag ∈ prefs →
       ("• " ++ tag).data <:+:
         (systemPrompt today style transport budget (some prefs)).data) ∧
    (resolvedStyle none = "leisure" ∧ resolvedTransport none = "public" ∧
     resolvedBudget none = "standard" ∧
     resolvedStyle (some ⟨some "leisure", some "public", some "standard"⟩) = "leisure" ∧
     resolvedTransport (some ⟨some "leisure", some "public", some "standard"⟩) = "public" ∧
     resolvedBudget (some ⟨some "leisure", some "public", some "standard"⟩) = "standard") ∧
    (∀ (today : SimpleDate) (noteContent : String) (options : Option TravelPlanOptions)
       (prefs : Option (List String)),
       resolvedStyle options = "leisure" → resolvedTransport options = "public" →
       resolvedBudget options = "standard" →
       ("wypoczynkowy (spokojne tempo, relaks)" : String).data <:+:
         (generatePlanPrompts today noteContent options prefs).1.data ∧
       ("komunikacja publiczna" : String).data <:+:
         (generatePlanPrompts today noteContent options prefs).1.data ∧
       ("standardowy (średnie ceny)" : String).data <:+:
         (generatePlanPrompts today noteContent options prefs).1.data) := by
  refine ⟨?_, ?_, ⟨by decide, by decide, by decide, by decide, by decide, by decide⟩, ?_⟩
  · intro today style transport budget
    refine ⟨rfl, rfl, ?_, ?_⟩
    · simp [systemPrompt, prefsSegment, String.append_empty, String.append_assoc]
    · simp [systemPrompt, prefsSegment]
  · intro today style transport budget tag prefs htag
    have hlen : 0 < prefs.length := List.length_pos.mpr (List.ne_nil_of_mem htag)
    have hseg : prefsSegment (some prefs) =
        prefsHeadText ++ joinLines (prefs.map (fun pref => "• " ++ pref)) ++ prefsTailText := by
      simp [prefsSegment, hlen]
    have hmem : ("• " ++ tag) ∈ prefs.map (fun pref => "• " ++ pref) :=
      List.mem_map_of_mem _ htag
    have hin : ("• " ++ tag).data <:+: (prefsSegment (some prefs)).data := by
      rw [hseg]
      exact substringAppendLeft _ _ _
        (substringAppendRight _ _ _ (mem_joinLines_substring _ _ hmem))
    exact substringAppendLeft _ _ _ (substringAppendRight _ _ _ hin)
  · intro today noteContent options prefs hst htr hbu
    have hgp : (generatePlanPrompts today noteContent options prefs).1 =
        systemPrompt today "leisure" "public" "standard" prefs := by
      simp [generatePlanPrompts, hst, htr, hbu]
    refine ⟨?_, ?_, ?_⟩
    · rw [hgp]
      exact substringOfDecomp _
        (sysT0 ++ isoDate today ++ sysT1 ++ toString today.year ++ sysT2 ++
          toString today.year ++ sysT3 ++ toString (today.year + 1) ++ sysT4)
        "wypoczynkowy (spokojne tempo, relaks)"
        (sysT5 ++ transportDesc "public" ++ sysT6 ++ budgetDesc "standard" ++
          prefsSegment prefs ++ sysT8)
        (by simp [systemPrompt, styleDesc, String.append_assoc])
    · rw [hgp]
      exact substringOfDecomp _
        (sysT0 ++ isoDate today ++ sysT1 ++ toString today.year ++ sysT2 ++
          toString today.year ++ sysT3 ++ toString (today.year + 1) ++ sysT4 ++
          styleDesc "leisure" ++ sysT5)
        "komunikacja publiczna"
        (sysT6 ++ budgetDesc "standard" ++ prefsSegment prefs ++ sysT8)
        (by simp [systemPrompt, transportDesc, String.append_assoc])
    · rw [hgp]
      exact substringOfDecomp _
        (sysT0 ++ isoDate today ++ sysT1 ++ toString today.year ++ sysT2 ++
          toString today.year ++ sysT3 ++ toString (today.year + 1) ++ sysT4 ++
          styleDesc "leisure" ++ sysT5 ++ transportDesc "public" ++ sysT6)
        "standardowy (średnie ceny)"
        (prefsSegment prefs ++ sysT8)
        (by simp [systemPrompt, budgetDesc, String.append_assoc])

/-- Witness for C9: a concrete tag list and absent options. -/
theorem preferences_block_and_defaults_witness :
    ("• " ++ "włoska kuchnia").data <:+:
      (systemPrompt ⟨2025, 11, 5⟩ "leisure" "public" "standard"
        (some ["włoska kuchnia", "historia"])).data ∧
    ("wypoczynkowy (spokojne tempo, relaks)" : String).data <:+:
      (generatePlanPrompts ⟨2025, 11, 5⟩ "Weekend w Krakowie" none none).1.data :=
  ⟨preferences_block_and_defaults.2.1 ⟨2025, 11, 5⟩ "leisure" "public" "standard"
      "włoska kuchnia" ["włoska kuchnia", "historia"] (by simp),
   (preferences_block_and_defaults.2.2.2 ⟨2025, 11, 5⟩ "Weekend w Krakowie" none none
      rfl rfl rfl).1⟩

/-- C10: `validateNoteContent` returns `true` exactly when the content is
non-null, non-empty and has at least 10 whitespace-separated words
(consecutive whitespace being one separator), and the PUT route gate lets a
request proceed exactly when that check passes. -/
theorem validateNoteContent_iff (content : Option String) :
    (validateNoteContent content = true ↔
      ∃ s, content = some s ∧ s ≠ "" ∧ 10 ≤ wordEndCount s.data) ∧
    (noteContentGate content = .proceed ↔ validateNoteContent content = true) := by
  constructor
  · cases content with
    | none => simp [validateNoteContent]
    | some s =>
      by_cases hs : s = ""
      · subst hs; simp [validateNoteContent]
      · have hlen : (wordList s).length = wordEndCount s.data := by
          rw [wordList, wordsAux_length s.data []]
          simp
        simp [validateNoteContent, hs, hlen]
  · unfold noteContentGate
    by_cases h : validateNoteContent content = true
    · simp [h]
    · simp [h]

/-- Witness for C10: a 12-word note passes, a 9-word note fails. -/
theorem validateNoteContent_iff_witness :
    validateNoteContent
      (some "Weekend w Krakowie, zwiedzanie Wawelu i Rynku, dwa dni, muzea oraz restauracje") = true ∧
    validateNoteContent (some "za krótka notatka o podróży do Krakowa na weekend") = false :=
  ⟨(validateNoteContent_iff
      (some "Weekend w Krakowie, zwiedzanie Wawelu i Rynku, dwa dni, muzea oraz restauracje")).1.mpr
      ⟨"Weekend w Krakowie, zwiedzanie Wawelu i Rynku, dwa dni, muzea oraz restauracje",
        rfl, by decide, by decide⟩,
   by
    by_contra h
    have h' : validateNoteContent
        (some "za krótka notatka o podróży do Krakowa na weekend") = true := by
      revert h
      cases validateNoteContent (some "za krótka notatka o podróży do Krakowa na weekend") with
      | true => intro _; rfl
      | false => intro h; exact absurd rfl h
    have := (validateNoteContent_iff
      (some "za krótka notatka o podróży do Krakowa na weekend")).1.mp h'
    rcases this with ⟨s, hs, _, hcount⟩
    have hss : s = "za krótka notatka o podróży do Krakowa na weekend" := by
      injection hs.symm
    subst hss
    revert hcount
    decide⟩

end VibeTravels
